import Mathlib

/-!
Shallow embedding of the hc-sr04 crate (src/lib.rs and src/error.rs), a driver
for the HC-SR04 ultrasonic distance sensor.

Modelling conventions:
* Rust `f32` values are modelled over `ℚ` (exact arithmetic; the properties
  under study concern the algebraic formulas computed by the code, not binary
  rounding).
* `std::time::Duration` values are modelled as a rational number of seconds.
* The GPIO collaborator (the `rppal` crate) is modelled as an environment
  (`GpioEnv`) deciding which fallible calls fail, together with an explicit set
  of claimed pins (`GpioState`).  Per the collaborator contract, a pin handle
  is a single-owner resource released when the handle is dropped, which in Rust
  happens on every early `?` return of `HcSr04::new`.
* The echo input line observed by `measure_distance` is modelled as a trace
  (`EchoTrace`): the successive results of the unbounded rising-edge polls, the
  result of the single bounded falling-edge poll, and the elapsed time that
  `Instant::elapsed` reports when the falling-edge poll returns.
* The unbounded rising-edge `while` loop is modelled with explicit fuel; a
  `none` result means the loop has not returned within that many iterations.
-/

/-- GpioLevel mirrors `rppal::gpio::Level`, the pin level reported by
`poll_interrupt`. -/
inductive GpioLevel where
  | Low
  | High
  deriving DecidableEq

/-- Error mirrors `error::Error` from src/error.rs, parametrised by the
platform error type `ε` standing in for `rppal::gpio::Error`. -/
inductive Error (ε : Type) where
  | Gpio (e : ε)
  | Timeout

/-- fromGpio mirrors `impl From<gpio::Error> for Error` in src/error.rs: the
conversion applied by every `?` on a GPIO result. -/
def Error.fromGpio {ε : Type} (e : ε) : Error ε := Error.Gpio e

/-- MeasureUnit mirrors the crate's `Unit` enum (measuring unit).  The Rust
name `Unit` collides with a core Lean type, hence the longer name. -/
inductive MeasureUnit where
  | Millimeters
  | Centimeters
  | Decimeters
  | Meters

/-- Speed of sound at 0C in m/s (`SOUND_SPEED_0C` in `calibration_calc`). -/
def SOUND_SPEED_0C : ℚ := 331.3

/-- Increase of the speed of sound over temperature, in m/(s·°C)
(`SOUND_SPEED_INC_OVER_TEMP` in `calibration_calc`). -/
def SOUND_SPEED_INC_OVER_TEMP : ℚ := 0.606

/-- Maximum measuring range of the sensor in m (`MAX_RANGE` in
`calibration_calc`). -/
def MAX_RANGE : ℚ := 4.0

/-- HcSr04 mirrors the `HcSr04` struct: the two owned pins (represented by
their GPIO pin numbers) and the calibration pair.  `timeout` is the
`Duration` field, in seconds. -/
structure HcSr04 where
  trig : Nat
  echo : Nat
  sound_speed : ℚ
  timeout : ℚ

/-- calibration_calc mirrors `HcSr04::calibration_calc`:
`sound_speed = SOUND_SPEED_0C + SOUND_SPEED_INC_OVER_TEMP * temp` and
`timeout = Duration::from_secs_f32(MAX_RANGE / sound_speed)`, the latter
modelled as the rational number of seconds `MAX_RANGE / sound_speed`. -/
def HcSr04.calibration_calc (temp : ℚ) : ℚ × ℚ :=
  let sound_speed := SOUND_SPEED_0C + SOUND_SPEED_INC_OVER_TEMP * temp
  let timeout := MAX_RANGE / sound_speed
  (sound_speed, timeout)

/-- calibrate mirrors `HcSr04::calibrate`: overwrite both calibration fields
with the pair computed by `calibration_calc`. -/
def HcSr04.calibrate (self : HcSr04) (temp : ℚ) : HcSr04 :=
  let p := HcSr04.calibration_calc temp
  { self with sound_speed := p.1, timeout := p.2 }

/-- Panic condition of the `Duration::from_secs_f32` collaborator (Rust std)
at the argument `MAX_RANGE / s` computed by `calibration_calc`:
`from_secs_f32` panics when its argument is negative or not finite.  In `f32`,
`MAX_RANGE / s` is finite and nonnegative exactly when the divisor `s` is
positive (`s = 0` yields `+∞`, `s < 0` yields a negative value), so the call
is panic-free exactly when `0 < s`. -/
def fromSecsF32Ok (s : ℚ) : Bool := decide (0 < s)

/-- Physically plausible ambient temperature in Celsius: at or above absolute
zero (−273.15 °C). -/
def validTemp (temp : ℚ) : Prop := -273.15 ≤ temp

/-- GpioEnv abstracts the fallible calls of the `rppal` GPIO collaborator used
by `HcSr04::new`: `Gpio::new()`, `gpio.get(pin)` and
`echo.set_interrupt(Trigger::Both)`.  Each field tells whether the call fails
and, if so, with which platform error. -/
structure GpioEnv (ε : Type) where
  newErr : Option ε
  getErr : Nat → Option ε
  interruptErr : Option ε

/-- GpioState is the set of GPIO pins currently claimed by a live pin handle.
A successful `gpio.get(pin)` claims `pin`; dropping the handle releases it
(single-owner resource handles with release on destruction). -/
structure GpioState where
  claimed : List Nat

/-- new mirrors `HcSr04::new`, threading the claimed-pin state explicitly:
`Gpio::new()?`, then `gpio.get(echo)?.into_input_pulldown()` (claiming the
echo pin), then `echo.set_interrupt(Trigger::Both)?`, then `calibration_calc`
on `temp.unwrap_or(20.)`, then `gpio.get(trig)?.into_output_low()` (claiming
the trig pin).  On every early `?` return the local `echo` handle is dropped,
releasing its pin, so the state returned alongside an error is the initial
state `s`; only the final `Ok` leaves both pins claimed. -/
def HcSr04.new {ε : Type} (env : GpioEnv ε) (trig echo : Nat) (temp : Option ℚ)
    (s : GpioState) : Except (Error ε) HcSr04 × GpioState :=
  match env.newErr with
  | some e => (Except.error (Error.fromGpio e), s)
  | none =>
    match env.getErr echo with
    | some e => (Except.error (Error.fromGpio e), s)
    | none =>
      match env.interruptErr with
      | some e => (Except.error (Error.fromGpio e), s)
      | none =>
        let p := HcSr04.calibration_calc (temp.getD 20)
        match env.getErr trig with
        | some e => (Except.error (Error.fromGpio e), s)
        | none =>
          (Except.ok { trig := trig, echo := echo, sound_speed := p.1, timeout := p.2 },
            ⟨trig :: echo :: s.claimed⟩)

/-- EchoTrace records how the echo line behaves during one `measure_distance`
call: `rise n` is the result of the `n`-th unbounded
`poll_interrupt(false, None)` in the rising-edge `while` loop (`Except.error`
for a platform error, `Except.ok r` for a returned level `r`); `fall` is the
result of the single bounded `poll_interrupt(false, Some(self.timeout))`
(`Except.ok none` when that poll times out); `elapsed` is the value of
`instant.elapsed().as_secs_f32()` in seconds. -/
structure EchoTrace (ε : Type) where
  rise : Nat → Except ε (Option GpioLevel)
  fall : Except ε (Option GpioLevel)
  elapsed : ℚ

/-- risingWait models the loop
`while self.echo.poll_interrupt(false, None)? != Some(Level::High) {}` with
explicit fuel, polling from index `i`: `none` means the loop has not returned
after `fuel` polls; `some (Except.error e)` means a poll failed (the `?`
propagates); `some (Except.ok i)` means poll `i` returned `Some(Level::High)`
and the loop exited. -/
def risingWait {ε : Type} (rise : Nat → Except ε (Option GpioLevel)) :
    Nat → Nat → Option (Except ε Nat)
  | 0, _ => none
  | fuel + 1, i =>
    match rise i with
    | Except.error e => some (Except.error e)
    | Except.ok r =>
      if r = some GpioLevel.High then some (Except.ok i)
      else risingWait rise fuel (i + 1)

/-- measure_distance mirrors `HcSr04::measure_distance` on an echo-line trace.
The initial trigger pulse (`set_high`, 10 µs sleep, `set_low`) is infallible
and produces no data, so it has no representation here.  The rising-edge wait
is `risingWait` with explicit fuel (`none` = still blocked); then the bounded
falling-edge poll: any result other than `Some(Level::Low)` returns
`Ok(None)`; a `Low` result computes
`distance = sound_speed * elapsed / 2` and scales it by the requested unit. -/
def HcSr04.measure_distance {ε : Type} (self : HcSr04) (unit : MeasureUnit)
    (tr : EchoTrace ε) (fuel : Nat) : Option (Except (Error ε) (Option ℚ)) :=
  match risingWait tr.rise fuel 0 with
  | none => none
  | some (Except.error e) => some (Except.error (Error.fromGpio e))
  | some (Except.ok _) =>
    match tr.fall with
    | Except.error e => some (Except.error (Error.fromGpio e))
    | Except.ok r =>
      if r ≠ some GpioLevel.Low then some (Except.ok none)
      else
        let distance := self.sound_speed * tr.elapsed / 2
        some (Except.ok (some (match unit with
          | MeasureUnit.Millimeters => distance * 1000
          | MeasureUnit.Centimeters => distance * 100
          | MeasureUnit.Decimeters => distance * 10
          | MeasureUnit.Meters => distance)))

/-- unitFactor is the fixed linear scale factor of each measuring unit
relative to meters (×1000, ×100, ×10, ×1), used to state the unit-conversion
property. -/
def unitFactor : MeasureUnit → ℚ
  | MeasureUnit.Millimeters => 1000
  | MeasureUnit.Centimeters => 100
  | MeasureUnit.Decimeters => 10
  | MeasureUnit.Meters => 1

/-- Reachable h T holds when the handle state `h` can arise from a successful
`HcSr04::new` followed by any number of `calibrate` calls, with `T` the most
recently supplied temperature (the `new` default being 20 °C). -/
inductive Reachable (ε : Type) : HcSr04 → ℚ → Prop where
  | of_new : ∀ (env : GpioEnv ε) (trig echo : Nat) (temp : Option ℚ)
      (s s' : GpioState) (h : HcSr04),
      HcSr04.new env trig echo temp s = (Except.ok h, s') →
      Reachable ε h (temp.getD 20)
  | of_calibrate : ∀ (h : HcSr04) (T temp : ℚ),
      Reachable ε h T → Reachable ε (h.calibrate temp) temp

lemma sound_speed_pos (T : ℚ) (h : validTemp T) :
    0 < (HcSr04.calibration_calc T).1 := by
  unfold HcSr04.calibration_calc validTemp at *
  unfold SOUND_SPEED_0C SOUND_SPEED_INC_OVER_TEMP
  simp only
  norm_num
  linarith

/-- C5: calling `new` with no temperature behaves exactly like calling it with
`Some 20.0`: the default ambient temperature for the initial calibration is
20 °C. -/
theorem new_default_temp {ε : Type} (env : GpioEnv ε) (trig echo : Nat)
    (s : GpioState) :
    HcSr04.new env trig echo none s = HcSr04.new env trig echo (some 20) s := rfl

/-- C1: in every reachable handle state with most recent temperature `T`,
`sound_speed = 331.3 + 0.606 * T` and `timeout = 4.0 / sound_speed` seconds:
`new` and `calibrate` both install the pair computed by `calibration_calc`
from the same temperature, so the two fields are never independently stale. -/
theorem reachable_calibration_pair {ε : Type} (h : HcSr04) (T : ℚ)
    (hr : Reachable ε h T) :
    h.sound_speed = SOUND_SPEED_0C + SOUND_SPEED_INC_OVER_TEMP * T ∧
      h.timeout = MAX_RANGE / h.sound_speed := by
  induction hr with
  | of_new env trig echo temp s s' h heq =>
    unfold HcSr04.new at heq
    repeat' split at heq
    any_goals exact Except.noConfusion (congrArg Prod.fst heq)
    rw [Prod.mk.injEq] at heq
    obtain ⟨hh, -⟩ := heq
    rw [Except.ok.injEq] at hh
    subst hh
    simp [HcSr04.calibration_calc]
  | of_calibrate h T temp _ _ =>
    simp [HcSr04.calibrate, HcSr04.calibration_calc]

/-- Witness for C1 at a concrete reachable state: construct with the default
temperature via an all-successful environment, then recalibrate at 25 °C. -/
theorem reachable_calibration_pair_witness :
    (HcSr04.calibrate
        { trig := 24, echo := 23, sound_speed := (HcSr04.calibration_calc 20).1,
          timeout := (HcSr04.calibration_calc 20).2 } 25).timeout =
      MAX_RANGE /
        (HcSr04.calibrate
          { trig := 24, echo := 23, sound_speed := (HcSr04.calibration_calc 20).1,
            timeout := (HcSr04.calibration_calc 20).2 } 25).sound_speed :=
  (reachable_calibration_pair _ _
    (Reachable.of_calibrate _ _ 25
      (Reachable.of_new (ε := Unit) ⟨none, fun _ => none, none⟩ 24 23 none
        ⟨[]⟩ ⟨[24, 23]⟩ _ rfl))).2

/-- C6: for physically valid temperatures the echo timeout is strictly
positive, and a higher temperature gives a strictly higher sound speed and a
strictly shorter timeout. -/
theorem echo_timeout_pos_antitone (T1 T2 : ℚ) (h1 : validTemp T1)
    (h2 : validTemp T2) :
    0 < (HcSr04.calibration_calc T1).2 ∧
      (T1 < T2 →
        (HcSr04.calibration_calc T1).1 < (HcSr04.calibration_calc T2).1 ∧
          (HcSr04.calibration_calc T2).2 < (HcSr04.calibration_calc T1).2) := by
  have p1 := sound_speed_pos T1 h1
  have p2 := sound_speed_pos T2 h2
  constructor
  · have h4 : (0 : ℚ) < MAX_RANGE := by norm_num [MAX_RANGE]
    exact div_pos h4 p1
  · intro hlt
    have hs : (HcSr04.calibration_calc T1).1 < (HcSr04.calibration_calc T2).1 := by
      simp only [HcSr04.calibration_calc]
      have : (0 : ℚ) < SOUND_SPEED_INC_OVER_TEMP := by
        norm_num [SOUND_SPEED_INC_OVER_TEMP]
      nlinarith
    refine ⟨hs, ?_⟩
    simp only [HcSr04.calibration_calc] at *
    have h4 : (0 : ℚ) < MAX_RANGE := by norm_num [MAX_RANGE]
    exact div_lt_div_of_pos_left h4 p1 hs

/-- Witness for C6 at the concrete temperatures 0 °C and 10 °C. -/
theorem echo_timeout_pos_antitone_witness :
    0 < (HcSr04.calibration_calc 0).2 ∧
      ((0 : ℚ) < 10 →
        (HcSr04.calibration_calc 0).1 < (HcSr04.calibration_calc 10).1 ∧
          (HcSr04.calibration_calc 10).2 < (HcSr04.calibration_calc 0).2) :=
  echo_timeout_pos_antitone 0 10 (by norm_num [validTemp]) (by norm_num [validTemp])

/-- C8: over physically plausible temperatures, calibration has no failure
mode: the argument `MAX_RANGE / sound_speed` passed to
`Duration::from_secs_f32` is finite and nonnegative (its divisor is positive),
so the construction never panics; `calibration_calc` is a total function. -/
theorem calibration_no_panic (T : ℚ) (h : validTemp T) :
    fromSecsF32Ok (HcSr04.calibration_calc T).1 = true := by
  simp only [fromSecsF32Ok, decide_eq_true_iff]
  exact sound_speed_pos T h

/-- Witness for C8 at the concrete temperature 20 °C. -/
theorem calibration_no_panic_witness :
    fromSecsF32Ok (HcSr04.calibration_calc 20).1 = true :=
  calibration_no_panic 20 (by norm_num [validTemp])

/-- C7: whenever `new` returns an error, the error wraps the underlying GPIO
platform error, and the claimed-pin state is exactly the initial one: every
pin acquired before the failure has been released (construction is atomic). -/
theorem new_error_gpio_atomic {ε : Type} (env : GpioEnv ε) (trig echo : Nat)
    (temp : Option ℚ) (s : GpioState) (err : Error ε)
    (h : (HcSr04.new env trig echo temp s).1 = Except.error err) :
    (∃ e, err = Error.Gpio e) ∧ (HcSr04.new env trig echo temp s).2 = s := by
  unfold HcSr04.new at *
  repeat' split at h
  all_goals simp_all [Error.fromGpio]
  all_goals exact ⟨_, h.symm⟩

/-- Witness for C7 with an environment in which `Gpio::new()` itself fails. -/
theorem new_error_gpio_atomic_witness :
    (∃ e, (Error.Gpio () : Error Unit) = Error.Gpio e) ∧
      (HcSr04.new (⟨some (), fun _ => none, none⟩ : GpioEnv Unit) 24 23 none
        ⟨[]⟩).2 = ⟨[]⟩ :=
  new_error_gpio_atomic ⟨some (), fun _ => none, none⟩ 24 23 none ⟨[]⟩
    (Error.Gpio ()) rfl

/-- C2: when the rising edge has been observed and the bounded falling-edge
poll returns a `Low` level after elapsed time `e`, the base meters distance
returned by `measure_distance` is `sound_speed * e / 2`. -/
theorem measure_distance_meters_formula {ε : Type} (self : HcSr04)
    (tr : EchoTrace ε) (fuel i : Nat)
    (hrise : risingWait tr.rise fuel 0 = some (Except.ok i))
    (hfall : tr.fall = Except.ok (some GpioLevel.Low)) :
    self.measure_distance MeasureUnit.Meters tr fuel =
      some (Except.ok (some (self.sound_speed * tr.elapsed / 2))) := by
  unfold HcSr04.measure_distance
  rw [hrise, hfall]
  simp

/-- Witness for C2: sound speed 340 m/s and a 10 ms round trip give 1.7 m. -/
theorem measure_distance_meters_formula_witness :
    HcSr04.measure_distance (ε := Unit) ⟨24, 23, 340, 1⟩ MeasureUnit.Meters
      ⟨fun _ => Except.ok (some GpioLevel.High), Except.ok (some GpioLevel.Low), 1/100⟩ 1 =
      some (Except.ok (some ((340 : ℚ) * (1/100) / 2))) :=
  measure_distance_meters_formula ⟨24, 23, 340, 1⟩
    ⟨fun _ => Except.ok (some GpioLevel.High), Except.ok (some GpioLevel.Low), 1/100⟩
    1 0 rfl rfl

/-- C3: when the rising edge has been observed and the bounded falling-edge
poll times out (returns no level) with no platform error, `measure_distance`
returns the successful absent outcome `Ok(None)`, never an error. -/
theorem measure_distance_timeout_ok_none {ε : Type} (self : HcSr04)
    (unit : MeasureUnit) (tr : EchoTrace ε) (fuel i : Nat)
    (hrise : risingWait tr.rise fuel 0 = some (Except.ok i))
    (hfall : tr.fall = Except.ok none) :
    self.measure_distance unit tr fuel = some (Except.ok none) := by
  unfold HcSr04.measure_distance
  rw [hrise, hfall]
  simp

/-- Witness for C3 on a trace whose falling-edge poll times out. -/
theorem measure_distance_timeout_ok_none_witness :
    HcSr04.measure_distance (ε := Unit) ⟨24, 23, 343, 1⟩ MeasureUnit.Meters
      ⟨fun _ => Except.ok (some GpioLevel.High), Except.ok none, 0⟩ 2 =
      some (Except.ok none) :=
  measure_distance_timeout_ok_none ⟨24, 23, 343, 1⟩ MeasureUnit.Meters
    ⟨fun _ => Except.ok (some GpioLevel.High), Except.ok none, 0⟩ 2 0 rfl rfl

/-- C4: on the same trace (same physical event), the result in any unit is
the meters result scaled by that unit's fixed linear factor (×1, ×10, ×100,
×1000 for meters, decimeters, centimeters, millimeters). -/
theorem measure_distance_unit_scaling {ε : Type} (self : HcSr04)
    (unit : MeasureUnit) (tr : EchoTrace ε) (fuel : Nat) (d : ℚ)
    (hm : self.measure_distance MeasureUnit.Meters tr fuel =
      some (Except.ok (some d))) :
    self.measure_distance unit tr fuel =
      some (Except.ok (some (d * unitFactor unit))) := by
  unfold HcSr04.measure_distance at hm ⊢
  rcases hR : risingWait tr.rise fuel 0 with _ | r
  · rw [hR] at hm
    exact Option.noConfusion hm
  · rw [hR] at hm
    rcases r with e | j
    · simp at hm
    · rcases hF : tr.fall with e | rr
      · rw [hF] at hm
        simp at hm
      · rw [hF] at hm
        by_cases hrr : rr = some GpioLevel.Low
        · subst hrr
          simp at hm ⊢
          subst hm
          cases unit <;> simp [unitFactor]
        · simp [hrr] at hm

/-- Witness for C4: the same trace measured in centimeters yields exactly 100
times the meters reading. -/
theorem measure_distance_unit_scaling_witness :
    HcSr04.measure_distance (ε := Unit) ⟨24, 23, 343, 1⟩ MeasureUnit.Centimeters
      ⟨fun _ => Except.ok (some GpioLevel.High), Except.ok (some GpioLevel.Low), 1/50⟩ 3 =
      some (Except.ok (some ((343 : ℚ) * (1/50) / 2 * unitFactor MeasureUnit.Centimeters))) :=
  measure_distance_unit_scaling ⟨24, 23, 343, 1⟩ MeasureUnit.Centimeters
    ⟨fun _ => Except.ok (some GpioLevel.High), Except.ok (some GpioLevel.Low), 1/50⟩ 3
    ((343 : ℚ) * (1/50) / 2) rfl

lemma risingWait_none {ε : Type} (rise : Nat → Except ε (Option GpioLevel))
    (hnoHigh : ∀ n, rise n ≠ Except.ok (some GpioLevel.High))
    (hnoErr : ∀ n e, rise n ≠ Except.error e) :
    ∀ fuel i, risingWait rise fuel i = none := by
  intro fuel
  induction fuel with
  | zero => intro i; rfl
  | succ fuel ih =>
    intro i
    unfold risingWait
    rcases hR : rise i with e | r
    · exact absurd hR (hnoErr i e)
    · have hne : r ≠ some GpioLevel.High := fun h => hnoHigh i (h ▸ hR)
      simp only [hR, hne, ite_false, if_neg]
      exact ih (i + 1)

/-- C9: the rising-edge wait is unbounded: on a trace in which the unbounded
polls never report a `High` level and never fail, `measure_distance` has not
returned after any number of loop iterations (it never proceeds past the
rising-edge wait). -/
theorem measure_distance_rising_unbounded {ε : Type} (self : HcSr04)
    (unit : MeasureUnit) (tr : EchoTrace ε)
    (hnoHigh : ∀ n, tr.rise n ≠ Except.ok (some GpioLevel.High))
    (hnoErr : ∀ n e, tr.rise n ≠ Except.error e) :
    ∀ fuel, self.measure_distance unit tr fuel = none := by
  intro fuel
  unfold HcSr04.measure_distance
  rw [risingWait_none tr.rise hnoHigh hnoErr fuel 0]

/-- Witness for C9 on an echo line that stays low forever. -/
theorem measure_distance_rising_unbounded_witness :
    HcSr04.measure_distance (ε := Unit) ⟨24, 23, 331, 1⟩ MeasureUnit.Millimeters
      ⟨fun _ => Except.ok (some GpioLevel.Low), Except.ok none, 0⟩ 7 = none :=
  measure_distance_rising_unbounded ⟨24, 23, 331, 1⟩ MeasureUnit.Millimeters
    ⟨fun _ => Except.ok (some GpioLevel.Low), Except.ok none, 0⟩
    (fun n => by simp) (fun n e => by simp) 7

/-- C10: after the rising edge, any falling-edge poll result other than a
`Low` level — a timeout, but also an edge whose observed level is `High` —
yields `Ok(None)`; only a `Low` observation within the bound produces a
computed distance. -/
theorem measure_distance_low_only {ε : Type} (self : HcSr04)
    (unit : MeasureUnit) (tr : EchoTrace ε) (fuel i : Nat)
    (hrise : risingWait tr.rise fuel 0 = some (Except.ok i)) :
    (∀ r, tr.fall = Except.ok r → r ≠ some GpioLevel.Low →
        self.measure_distance unit tr fuel = some (Except.ok none)) ∧
      (tr.fall = Except.ok (some GpioLevel.Low) →
        ∃ d, self.measure_distance unit tr fuel = some (Except.ok (some d))) := by
  constructor
  · intro r hF hne
    unfold HcSr04.measure_distance
    rw [hrise, hF]
    simp [hne]
  · intro hF
    unfold HcSr04.measure_distance
    rw [hrise, hF]
    exact ⟨_, rfl⟩

/-- Witness for C10: a falling-edge poll that reports a `High` level within
the bound still yields `Ok(None)`. -/
theorem measure_distance_low_only_witness :
    HcSr04.measure_distance (ε := Unit) ⟨24, 23, 346, 1⟩ MeasureUnit.Decimeters
      ⟨fun _ => Except.ok (some GpioLevel.High), Except.ok (some GpioLevel.High), 1/10⟩ 2 =
      some (Except.ok none) :=
  (measure_distance_low_only ⟨24, 23, 346, 1⟩ MeasureUnit.Decimeters
      ⟨fun _ => Except.ok (some GpioLevel.High), Except.ok (some GpioLevel.High), 1/10⟩ 2 0
      rfl).1 (some GpioLevel.High) rfl (by simp)
